import Mathlib

/-!
Verification of the nuclei-cloud scan orchestration core.

Shallow embedding of the Go sources:
  * the distribution planner (`ScanOptimizer`, `OptimizeDistribution`,
    `calculateOptimalDroplets`, `createChunks`);
  * the orchestrator state (`activeScans` registry, `StartScan`,
    `UpdateWorkerProgress`, `AddResult`, `CleanupScan`);
  * the HTTP handlers (`StartScan` handler, `ReceiveResults`,
    `WorkerHeartbeat`, `CompleteWorker`);
  * the WebSocket manager (`RegisterClient`, `UnregisterClient`,
    `BroadcastToScan`).

Modelling conventions:
  * Go `float64` progress values are modelled as exact rationals (`Rat`);
  * Go maps are modelled as functions into `Option`;
  * the per-orchestrator mutex is elided: every modelled operation is the
    atomic state transformation performed under the lock;
  * Go `int` values that are provably nonnegative at every use site
    (lengths, clamped droplet counts) are modelled as `Nat`; the one
    user-controlled count that may be negative (`requestedDroplets`,
    bound from JSON) is an `Int` and is clamped before any division;
  * external I/O (DigitalOcean API calls, goroutine scheduling, channel
    sends to sockets, logging) is outside the model; only the state
    transitions and emitted message values are embedded.
-/

namespace NucleiCloud

/-- ScanOptimizer from the Go source: bounds for the distribution planner.
The four fields are the configuration constants; the only constructor in
the repository (`NewScanOptimizer`) sets them to 500, 50, 5, 1. -/
structure ScanOptimizer where
  MaxDomainsPerDroplet : Nat
  MinDomainsPerDroplet : Nat
  MaxDroplets : Nat
  MinDroplets : Nat
deriving DecidableEq, Repr

/-- NewScanOptimizer: the default optimizer settings from the source. -/
def NewScanOptimizer : ScanOptimizer :=
  { MaxDomainsPerDroplet := 500
    MinDomainsPerDroplet := 50
    MaxDroplets := 5
    MinDroplets := 1 }

/-- calculateOptimalDroplets from the Go source.  `requestedDroplets` is a Go
`int` (possibly zero or negative), modelled as `Int`; after the two clamps
the count is at least `MinDroplets`, and with the repository's default
settings all later arithmetic is on nonnegative values, where Go's
truncating integer division agrees with `Nat` division. -/
def calculateOptimalDroplets (so : ScanOptimizer) (totalDomains : Nat)
    (requestedDroplets : Int) : Nat :=
  -- Start with requested droplets; ensure we don't exceed max droplets
  let o1 : Int :=
    if requestedDroplets > (so.MaxDroplets : Int) then (so.MaxDroplets : Int)
    else requestedDroplets
  -- Ensure we have at least min droplets
  let o2 : Nat := if o1 < (so.MinDroplets : Int) then so.MinDroplets else o1.toNat
  -- Check if domains per droplet would be too high
  let o3 : Nat :=
    if totalDomains / o2 > so.MaxDomainsPerDroplet then
      let m := (totalDomains + so.MaxDomainsPerDroplet - 1) / so.MaxDomainsPerDroplet
      if m > so.MaxDroplets then so.MaxDroplets else m
    else o2
  -- Check if domains per droplet would be too low (unless total domains is small)
  if totalDomains > so.MinDomainsPerDroplet then
    if totalDomains / o3 < so.MinDomainsPerDroplet then
      let k := totalDomains / so.MinDomainsPerDroplet
      if k < so.MinDroplets then so.MinDroplets else k
    else o3
  else o3

/-- Loop body of createChunks: Go's
`for i := 0; i < numDroplets; i++ { ... chunks[i] = domains[start:end] ... }`,
with the remaining iteration count as structural fuel (`fuel = numDroplets - i`).
`domains[start:end]` is `(domains.drop start).take (e - start)`. -/
def chunksGo (domains : List String) (total base extra : Nat) :
    Nat → Nat → Nat → List (List String)
  | 0, _, _ => []
  | fuel + 1, i, start =>
    let chunkSize := if i < extra then base + 1 else base
    let e := min (start + chunkSize) total
    ((domains.drop start).take (e - start)) :: chunksGo domains total base extra fuel (i + 1) e

/-- createChunks from the Go source: split `domains` into `numDroplets`
contiguous slices, the first `totalDomains % numDroplets` of them one longer
than the base size `totalDomains / numDroplets`. -/
def createChunks (domains : List String) (numDroplets : Nat) : List (List String) :=
  let totalDomains := domains.length
  let baseChunkSize := totalDomains / numDroplets
  let extraDomains := totalDomains % numDroplets
  chunksGo domains totalDomains baseChunkSize extraDomains numDroplets 0 0

/-- OptimizeDistribution from the Go source: empty input short-circuits to
`(0, [])`; otherwise compute the optimal droplet count and chunk the list. -/
def OptimizeDistribution (so : ScanOptimizer) (domains : List String)
    (requestedDroplets : Int) : Nat × List (List String) :=
  let totalDomains := domains.length
  if totalDomains = 0 then (0, [])
  else
    let optimalDroplets := calculateOptimalDroplets so totalDomains requestedDroplets
    let chunks := createChunks domains optimalDroplets
    (optimalDroplets, chunks)

/-- Stage 1 of calculateOptimalDroplets: clamp the requested count to
`[MinDroplets, MaxDroplets]` (same code as the first two steps of the source). -/
def clampDroplets (so : ScanOptimizer) (requestedDroplets : Int) : Nat :=
  let o1 : Int :=
    if requestedDroplets > (so.MaxDroplets : Int) then (so.MaxDroplets : Int)
    else requestedDroplets
  if o1 < (so.MinDroplets : Int) then so.MinDroplets else o1.toNat

/-- Stage 2 of calculateOptimalDroplets: raise the count if domains per
droplet would exceed `MaxDomainsPerDroplet`, reclamped to `MaxDroplets`. -/
def adjustHigh (so : ScanOptimizer) (totalDomains o2 : Nat) : Nat :=
  if totalDomains / o2 > so.MaxDomainsPerDroplet then
    let m := (totalDomains + so.MaxDomainsPerDroplet - 1) / so.MaxDomainsPerDroplet
    if m > so.MaxDroplets then so.MaxDroplets else m
  else o2

/-- Stage 3 of calculateOptimalDroplets: lower the count if domains per
droplet would fall below `MinDomainsPerDroplet` (unless the total is small),
reclamped to `MinDroplets`. -/
def adjustLow (so : ScanOptimizer) (totalDomains o3 : Nat) : Nat :=
  if totalDomains > so.MinDomainsPerDroplet then
    if totalDomains / o3 < so.MinDomainsPerDroplet then
      let k := totalDomains / so.MinDomainsPerDroplet
      if k < so.MinDroplets then so.MinDroplets else k
    else o3
  else o3

theorem calculateOptimalDroplets_decompose (so : ScanOptimizer) (N : Nat) (R : Int) :
    calculateOptimalDroplets so N R = adjustLow so N (adjustHigh so N (clampDroplets so R)) :=
  rfl

theorem clampDroplets_mem (R : Int) :
    1 ≤ clampDroplets NewScanOptimizer R ∧ clampDroplets NewScanOptimizer R ≤ 5 := by
  unfold clampDroplets NewScanOptimizer
  dsimp only
  split_ifs <;> omega

theorem adjustHigh_mem (N o2 : Nat) (h1 : 1 ≤ o2) (h5 : o2 ≤ 5) :
    1 ≤ adjustHigh NewScanOptimizer N o2 ∧ adjustHigh NewScanOptimizer N o2 ≤ 5 := by
  interval_cases o2 <;>
    (unfold adjustHigh NewScanOptimizer; dsimp only; split_ifs <;> omega)

theorem adjustLow_mem (N o3 : Nat) (h1 : 1 ≤ o3) (h5 : o3 ≤ 5) :
    1 ≤ adjustLow NewScanOptimizer N o3 ∧ adjustLow NewScanOptimizer N o3 ≤ 5 := by
  interval_cases o3 <;>
    (unfold adjustLow NewScanOptimizer; dsimp only; split_ifs <;> omega)

theorem calculateOptimalDroplets_mem (N : Nat) (R : Int) :
    1 ≤ calculateOptimalDroplets NewScanOptimizer N R ∧
      calculateOptimalDroplets NewScanOptimizer N R ≤ 5 := by
  rw [calculateOptimalDroplets_decompose]
  obtain ⟨ha, hb⟩ := clampDroplets_mem R
  obtain ⟨hc, hd⟩ := adjustHigh_mem N _ ha hb
  exact adjustLow_mem N _ hc hd

theorem chunksGo_flatten (domains : List String) (n : Nat) (hn : 0 < n) :
    ∀ (fuel i start : Nat), i + fuel = n →
      start = i * (domains.length / n) + min i (domains.length % n) →
      (chunksGo domains domains.length (domains.length / n) (domains.length % n)
          fuel i start).flatten
        = domains.drop start := by
  intro fuel
  induction fuel with
  | zero =>
    intro i start hi hstart
    have hi' : i = n := by omega
    rw [chunksGo, List.flatten_nil]
    have hstart' : start = domains.length := by
      rw [hstart, hi', Nat.min_eq_right (Nat.le_of_lt (Nat.mod_lt _ hn))]
      exact Nat.div_add_mod domains.length n
    rw [hstart', List.drop_length]
  | succ fuel ih =>
    intro i start hi hstart
    have hstep : start + (if i < domains.length % n then domains.length / n + 1
          else domains.length / n)
        = (i + 1) * (domains.length / n) + min (i + 1) (domains.length % n) := by
      rw [hstart]
      rcases Nat.lt_or_ge i (domains.length % n) with h | h
      · rw [if_pos h, Nat.min_eq_left (Nat.le_of_lt h), Nat.min_eq_left h,
          add_one_mul]
        generalize i * (domains.length / n) = p
        omega
      · rw [if_neg (Nat.not_lt.mpr h), Nat.min_eq_right h,
          Nat.min_eq_right (Nat.le_trans h (Nat.le_succ i)), add_one_mul]
        generalize i * (domains.length / n) = p
        omega
    have hbound : (i + 1) * (domains.length / n) + min (i + 1) (domains.length % n)
        ≤ domains.length := by
      have h1 : (i + 1) * (domains.length / n) ≤ n * (domains.length / n) :=
        Nat.mul_le_mul_right _ (by omega)
      have h2 : min (i + 1) (domains.length % n) ≤ domains.length % n :=
        Nat.min_le_right _ _
      have h3 : n * (domains.length / n) + domains.length % n = domains.length :=
        Nat.div_add_mod domains.length n
      omega
    have he : min (start + (if i < domains.length % n then domains.length / n + 1
          else domains.length / n)) domains.length
        = start + (if i < domains.length % n then domains.length / n + 1
          else domains.length / n) :=
      Nat.min_eq_left (by rw [hstep]; exact hbound)
    rw [chunksGo]
    rw [he, Nat.add_sub_cancel_left, List.flatten_cons,
      ih (i + 1) _ (by omega) (by rw [← hstep]), ← List.drop_drop,
      List.take_append_drop]

theorem createChunks_flatten (domains : List String) (n : Nat) (hn : 0 < n) :
    (createChunks domains n).flatten = domains := by
  have h := chunksGo_flatten domains n hn n 0 0 (by omega) (by simp)
  simpa [createChunks] using h

theorem chunksGo_length_le (domains : List String) (total base extra : Nat) :
    ∀ (fuel i start : Nat) (c : List String),
      c ∈ chunksGo domains total base extra fuel i start → c.length ≤ base + 1 := by
  intro fuel
  induction fuel with
  | zero => intro i start c hc; simp [chunksGo] at hc
  | succ fuel ih =>
    intro i start c hc
    rw [chunksGo] at hc
    rcases List.mem_cons.mp hc with h | h
    · subst h
      rw [List.length_take]
      split_ifs <;> omega
    · exact ih (i + 1) _ c h

theorem createChunks_length_le (domains : List String) (n : Nat) (c : List String)
    (hc : c ∈ createChunks domains n) : c.length ≤ domains.length / n + 1 := by
  exact chunksGo_length_le domains domains.length (domains.length / n)
    (domains.length % n) n 0 0 c hc

/-- C1: For every domain list (including the empty list) and every requested
node count, `OptimizeDistribution` returns a chunk list whose concatenation is
exactly the input (so the chunks are contiguous, in order, with no gaps or
overlaps), the chunk sizes sum to the input length, and the empty list yields
0 nodes and an empty chunk list. -/
theorem C1_optimizeDistribution_partitions (domains : List String) (R : Int) :
    (OptimizeDistribution NewScanOptimizer domains R).2.flatten = domains ∧
    ((OptimizeDistribution NewScanOptimizer domains R).2.map List.length).sum
        = domains.length ∧
    (domains = [] → OptimizeDistribution NewScanOptimizer domains R = (0, [])) := by
  by_cases h : domains.length = 0
  · have hd : domains = [] := List.length_eq_zero.mp h
    subst hd
    exact ⟨rfl, rfl, fun _ => rfl⟩
  · have hpos : 0 < calculateOptimalDroplets NewScanOptimizer domains.length R :=
      (calculateOptimalDroplets_mem domains.length R).1
    have heq : OptimizeDistribution NewScanOptimizer domains R
        = (calculateOptimalDroplets NewScanOptimizer domains.length R,
           createChunks domains
             (calculateOptimalDroplets NewScanOptimizer domains.length R)) := by
      unfold OptimizeDistribution
      rw [if_neg h]
    rw [heq]
    have hflat := createChunks_flatten domains _ hpos
    refine ⟨hflat, ?_, fun hd => absurd (by rw [hd]; rfl) h⟩
    rw [← List.length_flatten, hflat]

/-- C1 witness: the partition property at the concrete inputs
`["a","b","c"]` with requested count 2, and `[]` with requested count 3. -/
theorem C1_optimizeDistribution_partitions_witness :
    (OptimizeDistribution NewScanOptimizer ["a", "b", "c"] 2).2.flatten
        = ["a", "b", "c"] ∧
    OptimizeDistribution NewScanOptimizer ([] : List String) 3 = (0, []) :=
  ⟨(C1_optimizeDistribution_partitions ["a", "b", "c"] 2).1,
   (C1_optimizeDistribution_partitions [] 3).2.2 rfl⟩

set_option maxRecDepth 100000 in
/-- C3 counterexample: for 1001 domains with requested node count 2 the planner
keeps 2 nodes (1001 / 2 = 500 in truncating division, which is not `> 500`, so
the raising step never fires) and produces a first chunk of 501 domains,
exceeding `MaxDomainsPerDroplet = 500`.  So the claim that every produced chunk
has size within [0, maxItemsPerNode] is false. -/
theorem C3_planner_counterexample :
    (OptimizeDistribution NewScanOptimizer (List.replicate 1001 "d") 2).1 = 2 ∧
    ((OptimizeDistribution NewScanOptimizer (List.replicate 1001 "d") 2).2.map
        List.length) = [501, 500] ∧
    ¬ (501 ≤ NewScanOptimizer.MaxDomainsPerDroplet) := by
  decide

/-- C3 (amended): for every non-empty domain list of size N and every requested
node count R, the planner returns an effective node count n with
`MinDroplets ≤ n ≤ MaxDroplets` and every produced chunk has size at most
`N / n + 1`; the original bound `maxItemsPerNode` on chunk sizes does not hold
(see the counterexample). -/
theorem C3_planner_bounds (domains : List String) (R : Int) (h : domains ≠ []) :
    NewScanOptimizer.MinDroplets ≤ (OptimizeDistribution NewScanOptimizer domains R).1 ∧
    (OptimizeDistribution NewScanOptimizer domains R).1 ≤ NewScanOptimizer.MaxDroplets ∧
    ∀ c ∈ (OptimizeDistribution NewScanOptimizer domains R).2,
      c.length ≤ domains.length / (OptimizeDistribution NewScanOptimizer domains R).1 + 1 := by
  have h0 : ¬ domains.length = 0 := fun h0 => h (List.length_eq_zero.mp h0)
  have heq : OptimizeDistribution NewScanOptimizer domains R
      = (calculateOptimalDroplets NewScanOptimizer domains.length R,
         createChunks domains
           (calculateOptimalDroplets NewScanOptimizer domains.length R)) := by
    unfold OptimizeDistribution
    rw [if_neg h0]
  rw [heq]
  obtain ⟨h1, h5⟩ := calculateOptimalDroplets_mem domains.length R
  exact ⟨h1, h5, fun c hc => createChunks_length_le domains _ c hc⟩

/-- C3 witness: the amended bounds at the concrete input `["a","b","c"]`
with requested node count 2. -/
theorem C3_planner_bounds_witness :
    NewScanOptimizer.MinDroplets
        ≤ (OptimizeDistribution NewScanOptimizer ["a", "b", "c"] 2).1 ∧
    (OptimizeDistribution NewScanOptimizer ["a", "b", "c"] 2).1
        ≤ NewScanOptimizer.MaxDroplets ∧
    (["a", "b"] : List String).length ≤ (["a", "b", "c"] : List String).length
        / (OptimizeDistribution NewScanOptimizer ["a", "b", "c"] 2).1 + 1 :=
  ⟨(C3_planner_bounds ["a", "b", "c"] 2 (by decide)).1,
   (C3_planner_bounds ["a", "b", "c"] 2 (by decide)).2.1,
   (C3_planner_bounds ["a", "b", "c"] 2 (by decide)).2.2 ["a", "b"] (by decide)⟩

/-- C4 counterexample: on 10 domains with requested node count 5 (default
bounds, whose `MinDomainsPerDroplet` is 50) the planner returns 5 nodes with
chunks of 2 domains each, not 1 node with one chunk of all 10 domains: the
lowering step is skipped because the total (10) does not exceed
`MinDomainsPerDroplet` (50). -/
theorem C4_planner_counterexample :
    ¬ ((OptimizeDistribution NewScanOptimizer
          ["a", "b", "c", "d", "e", "f", "g", "h", "i", "j"] 5).1 = 1) := by
  decide

/-- C4 (amended): for 10 domains with requested node count 5 and the default
bounds (`MinDomainsPerDroplet = 50`), the planner returns effective node count
5 and five chunks of 2 domains each, in order. -/
theorem C4_planner_ten_domains :
    OptimizeDistribution NewScanOptimizer
        ["a", "b", "c", "d", "e", "f", "g", "h", "i", "j"] 5
      = (5, [["a", "b"], ["c", "d"], ["e", "f"], ["g", "h"], ["i", "j"]]) := by
  decide

/-- C10: the planner never divides by zero.  For every non-empty domain list
and every requested node count, including zero and negative values,
`calculateOptimalDroplets` returns at least `MinDroplets = 1`, so the division
and modulo by the node count in `createChunks` are by a positive number; the
empty-list case of `OptimizeDistribution` returns `(0, [])` before any
division. -/
theorem C10_planner_no_div_by_zero (domains : List String) (R : Int) :
    (domains ≠ [] →
      NewScanOptimizer.MinDroplets
          ≤ calculateOptimalDroplets NewScanOptimizer domains.length R ∧
      NewScanOptimizer.MinDroplets
          ≤ (OptimizeDistribution NewScanOptimizer domains R).1) ∧
    1 ≤ NewScanOptimizer.MinDroplets ∧
    OptimizeDistribution NewScanOptimizer [] R = (0, []) := by
  refine ⟨fun h => ?_, le_refl 1, rfl⟩
  have h0 : ¬ domains.length = 0 := fun h0 => h (List.length_eq_zero.mp h0)
  have h1 := (calculateOptimalDroplets_mem domains.length R).1
  refine ⟨h1, ?_⟩
  have heq : (OptimizeDistribution NewScanOptimizer domains R).1
      = calculateOptimalDroplets NewScanOptimizer domains.length R := by
    unfold OptimizeDistribution
    rw [if_neg h0]
  rw [heq]
  exact h1

/-- C10 witness: a positive droplet count at the concrete input `["a"]` with
the adversarial requested count -7, and the empty-list short-circuit. -/
theorem C10_planner_no_div_by_zero_witness :
    NewScanOptimizer.MinDroplets
        ≤ calculateOptimalDroplets NewScanOptimizer
            (["a"] : List String).length (-7) ∧
    OptimizeDistribution NewScanOptimizer [] (-7) = (0, []) :=
  ⟨((C10_planner_no_div_by_zero ["a"] (-7)).1 (by decide)).1,
   (C10_planner_no_div_by_zero [] (-7)).2.2⟩

/-- Log entry streamed by a worker (types.Log); `time.Time` is modelled as an
opaque Nat timestamp, and the Go field `Type` is named `logType` because
`Type` is reserved in Lean. -/
structure Log where
  Timestamp : Nat
  Message : String
  logType : String
  WorkerID : String
deriving DecidableEq, Repr

/-- WorkerStatus (types.WorkerStatus): per-droplet progress record.  Progress
is a Go float64 in [0,100], modelled as an exact rational. -/
structure WorkerStatus where
  ID : String
  IP : String
  Progress : Rat
  CurrentDomain : String
  DomainsScanned : Int
  TotalDomains : Int
  Logs : List Log
  CreatedAt : Nat
  Status : String
deriving DecidableEq, Repr

/-- ScanResult (types.ScanResult): one nuclei finding. -/
structure ScanResult where
  Host : String
  Template : String
  Severity : String
  Match : String
  Timestamp : Nat
  WorkerID : String
deriving DecidableEq, Repr

/-- ScanStatus (types.ScanStatus): the aggregate state of one scan.  The two
counters are Go ints that are only ever set from lengths or incremented, so
they are modelled as Nat. -/
structure ScanStatus where
  ID : String
  Progress : Rat
  ActiveDroplets : List WorkerStatus
  Results : List ScanResult
  TotalDomains : Nat
  ScannedDomains : Nat
  Status : String
deriving DecidableEq, Repr

/-- The orchestrator's `activeScans` map (Go `map[string]*types.ScanStatus`),
modelled as a function into Option; every modelled operation is the whole
critical section executed under the orchestrator mutex. -/
def ScanRegistry : Type := String → Option ScanStatus

/-- The zero-valued ScanState registered by the orchestrator's StartScan
(progress 0, no droplets, no results, status "starting"). -/
def initialScanStatus (id : String) (domains : List String) : ScanStatus :=
  { ID := id
    Progress := 0
    ActiveDroplets := []
    Results := []
    TotalDomains := domains.length
    ScannedDomains := 0
    Status := "starting" }

/-- The registry update performed by the orchestrator's StartScan; droplet
creation is fire-and-forget external I/O and the function always returns nil,
so only the registration is modelled. -/
def startScanRegister (st : ScanRegistry) (id : String) (domains : List String) :
    ScanRegistry :=
  fun k => if k = id then some (initialScanStatus id domains) else st k

/-- The registration of a ready worker into the scan's droplet list performed
by waitForWorker once the droplet is active and has an IP. -/
def registerWorker (st : ScanRegistry) (scanID : String) (w : WorkerStatus) :
    ScanRegistry :=
  fun k =>
    if k = scanID then
      match st scanID with
      | some scan => some { scan with ActiveDroplets := scan.ActiveDroplets ++ [w] }
      | none => none
    else st k

/-- Go's `int(float64)` conversion truncates toward zero. -/
def intOfFloat (q : Rat) : Int := if q < 0 then -((-q).floor) else q.floor

/-- The worker-update loop of UpdateWorkerProgress: update the first worker
whose ID matches (the loop breaks after the first hit), leaving the rest
untouched. -/
def updateWorkerFirst (workers : List WorkerStatus) (workerID : String)
    (progress : Rat) (currentDomain : String) : List WorkerStatus :=
  match workers with
  | [] => []
  | w :: ws =>
    if w.ID = workerID then
      { w with Progress := progress
               CurrentDomain := currentDomain
               DomainsScanned := intOfFloat ((w.TotalDomains : Rat) * progress / 100) } :: ws
    else w :: updateWorkerFirst ws workerID progress currentDomain

/-- UpdateWorkerProgress (orchestrator.go 207-230): if the scan exists, update
the matching worker, then recompute the overall progress as the sum of all
workers' progress divided by their number — but only when at least one worker
is registered; otherwise the stored progress is left as it was.  An unknown
scan ID leaves the registry unchanged (the function has no error return). -/
def UpdateWorkerProgress (st : ScanRegistry) (scanID workerID : String)
    (progress : Rat) (currentDomain : String) : ScanRegistry :=
  match st scanID with
  | none => st
  | some scan =>
    let workers := updateWorkerFirst scan.ActiveDroplets workerID progress currentDomain
    let totalProgress := (workers.map WorkerStatus.Progress).sum
    let newProgress :=
      if 0 < workers.length then totalProgress / (workers.length : Rat)
      else scan.Progress
    fun k =>
      if k = scanID then some { scan with ActiveDroplets := workers, Progress := newProgress }
      else st k

/-- AddResult (orchestrator.go 232-240): append a result and bump the scanned
counter if the scan exists. -/
def AddResult (st : ScanRegistry) (scanID : String) (result : ScanResult) :
    ScanRegistry :=
  match st scanID with
  | none => st
  | some scan =>
    fun k =>
      if k = scanID then
        some { scan with Results := scan.Results ++ [result]
                         ScannedDomains := scan.ScannedDomains + 1 }
      else st k

/-- GetScanStatus (orchestrator.go 196-205): lookup; `none` stands for the
"scan not found" error. -/
def GetScanStatus (st : ScanRegistry) (scanID : String) : Option ScanStatus :=
  st scanID

/-- CleanupScan (orchestrator.go 242-266): droplet destruction is external
I/O; in the registry the scan entry is deleted when present, and the function
returns nil in every path (the error component is always `none`). -/
def CleanupScan (st : ScanRegistry) (scanID : String) : ScanRegistry × Option String :=
  match st scanID with
  | some _ => (fun k => if k = scanID then none else st k, none)
  | none => (st, none)

/-- Payload of a WebSocketMessage (Go `interface{}`), restricted to the values
the handlers actually send. -/
inductive MsgData where
  | status (s : ScanStatus)
  | result (r : ScanResult)
  | text (s : String)
deriving DecidableEq, Repr

/-- WebSocketMessage (types.WebSocketMessage); the Go field `Type` is named
`msgType` because `Type` is reserved in Lean. -/
structure WebSocketMessage where
  msgType : String
  Data : MsgData
deriving DecidableEq, Repr

/-- Outcome of the StartScan HTTP handler: a 400 error with a message, or a
200 response carrying the scan id and the cleaned domain count. -/
inductive HandlerResult where
  | badRequest (msg : String)
  | ok (scanId : String) (domainsCount : Nat)
deriving DecidableEq, Repr

/-- Go's `unicode.IsSpace`: true exactly on the Unicode White_Space
characters — 0x09-0x0D (tab, LF, VT, FF, CR), space, NEL (U+0085),
NBSP (U+00A0), U+1680, U+2000-U+200A, U+2028, U+2029, U+202F, U+205F and
U+3000.  This is the set `strings.TrimSpace` trims. -/
def goIsSpace (c : Char) : Bool :=
  let n := c.toNat
  (0x09 ≤ n && n ≤ 0x0D) || n == 0x20 || n == 0x85 || n == 0xA0 ||
  n == 0x1680 || (0x2000 ≤ n && n ≤ 0x200A) ||
  n == 0x2028 || n == 0x2029 || n == 0x202F || n == 0x205F || n == 0x3000

/-- Helper for the TrimSpace model: drop leading Go-whitespace characters. -/
def dropLeadingWs : List Char → List Char
  | [] => []
  | c :: cs => if goIsSpace c then dropLeadingWs cs else c :: cs

/-- Go's `strings.TrimSpace` (an external library call): remove leading and
trailing `unicode.IsSpace` characters.  Modelled structurally over the
character list because Lean's own `String.trim` does not reduce in the kernel
(and trims a smaller character set than Go). -/
def goTrimSpace (s : String) : String :=
  String.mk ((dropLeadingWs (dropLeadingWs s.data).reverse).reverse)

/-- The domain-cleaning loop of the StartScan handler (handlers.go 42-48):
trim each entry and keep the non-empty ones, in order. -/
def cleanDomainsGo : List String → List String
  | [] => []
  | d :: ds =>
    let t := goTrimSpace d
    if t ≠ "" then t :: cleanDomainsGo ds else cleanDomainsGo ds

/-- StartScan HTTP handler (handlers.go 27-73).  The generated UUID is the
parameter `newID` (external randomness); the orchestrator's StartScan always
returns nil after registering the ScanState, so the 500 branch is unreachable
and the success response carries the scan id and the cleaned domain count. -/
def startScanHandler (st : ScanRegistry) (reqDomains : List String)
    (newID : String) : HandlerResult × ScanRegistry :=
  if reqDomains.length = 0 then (HandlerResult.badRequest "No domains provided", st)
  else
    let cleanDomains := cleanDomainsGo reqDomains
    if cleanDomains.length = 0 then
      (HandlerResult.badRequest "No valid domains provided", st)
    else
      (HandlerResult.ok newID cleanDomains.length,
       startScanRegister st newID cleanDomains)

/-- ReceiveResults handler (handlers.go 89-117): stamp the result with the
current time and the worker id, add it to the scan, and broadcast one message
of type "new_result". -/
def receiveResultsHandler (st : ScanRegistry) (scanID workerID : String)
    (result : ScanResult) (now : Nat) : ScanRegistry × List WebSocketMessage :=
  let result' := { result with Timestamp := now, WorkerID := workerID }
  let st' := AddResult st scanID result'
  (st', [{ msgType := "new_result", Data := MsgData.result result' }])

/-- WorkerHeartbeat handler (handlers.go 120-149): update the worker progress,
then broadcast one message of type "status_update" when the scan exists. -/
def workerHeartbeatHandler (st : ScanRegistry) (scanID workerID : String)
    (progress : Rat) (currentDomain : String) :
    ScanRegistry × List WebSocketMessage :=
  let st' := UpdateWorkerProgress st scanID workerID progress currentDomain
  match GetScanStatus st' scanID with
  | some status => (st', [{ msgType := "status_update", Data := MsgData.status status }])
  | none => (st', [])

/-- CompleteWorker handler (handlers.go 152-192): mark the worker 100%
complete; if every registered worker then has progress ≥ 100, set the scan
status to "completed" (the Go code writes through the pointer returned by
GetScanStatus, so the registry entry changes) and broadcast one message of
type "scan_complete".  The 30-second delayed CleanupScan goroutine is outside
this step. -/
def completeWorkerHandler (st : ScanRegistry) (scanID workerID : String) :
    ScanRegistry × List WebSocketMessage :=
  let st1 := UpdateWorkerProgress st scanID workerID 100 "completed"
  match GetScanStatus st1 scanID with
  | none => (st1, [])
  | some status =>
    let allComplete := status.ActiveDroplets.all (fun w => ! decide (w.Progress < 100))
    if allComplete then
      let status' := { status with Status := "completed" }
      ((fun k => if k = scanID then some status' else st1 k : ScanRegistry),
       [{ msgType := "scan_complete", Data := MsgData.status status' }])
    else (st1, [])

/-- The WebSocketManager's two maps (websocket.go 13-18): per-scan connection
sets (connections are opaque ids) and per-scan broadcast queues; a closed or
never-created channel is `none`, an open channel holds its queued messages
(capacity 100). -/
structure WSManager where
  clients : String → Option (List Nat)
  broadcast : String → Option (List WebSocketMessage)

/-- RegisterClient (websocket.go 80-93): on the first subscription for a scan,
create the connection set and a fresh broadcast queue (the dispatch goroutine
is external); then insert the connection (Go map-as-set insert: re-adding an
existing connection is a no-op). -/
def RegisterClient (wsm : WSManager) (scanID : String) (conn : Nat) : WSManager :=
  match wsm.clients scanID with
  | none =>
    { clients := fun k => if k = scanID then some [conn] else wsm.clients k
      broadcast := fun k => if k = scanID then some [] else wsm.broadcast k }
  | some cs =>
    { wsm with
      clients := fun k =>
        if k = scanID then some (if conn ∈ cs then cs else conn :: cs)
        else wsm.clients k }

/-- UnregisterClient (websocket.go 95-111): remove the connection if present;
when the last one leaves, close the broadcast channel and delete both map
entries. -/
def UnregisterClient (wsm : WSManager) (scanID : String) (conn : Nat) : WSManager :=
  match wsm.clients scanID with
  | none => wsm
  | some cs =>
    if conn ∈ cs then
      let cs' := cs.erase conn
      if cs'.length = 0 then
        { clients := fun k => if k = scanID then none else wsm.clients k
          broadcast := fun k => if k = scanID then none else wsm.broadcast k }
      else
        { wsm with
          clients := fun k => if k = scanID then some cs' else wsm.clients k }
    else wsm

/-- BroadcastToScan (websocket.go 113-125): nonblocking send; if the queue
exists and has room (capacity 100) the message is enqueued, a full queue drops
the message with a warning, and an absent queue means nothing happens. -/
def BroadcastToScan (wsm : WSManager) (scanID : String) (msg : WebSocketMessage) :
    WSManager :=
  match wsm.broadcast scanID with
  | none => wsm
  | some queue =>
    if queue.length < 100 then
      { wsm with
        broadcast := fun k =>
          if k = scanID then some (queue ++ [msg]) else wsm.broadcast k }
    else wsm

theorem updateWorkerFirst_nil_iff (workers : List WorkerStatus) (workerID : String)
    (p : Rat) (cd : String) :
    updateWorkerFirst workers workerID p cd = [] ↔ workers = [] := by
  cases workers with
  | nil => simp [updateWorkerFirst]
  | cons w ws =>
    simp only [updateWorkerFirst]
    split_ifs <;> simp

theorem updateWorkerFirst_of_not_mem (workers : List WorkerStatus)
    (workerID : String) (p : Rat) (cd : String)
    (h : ∀ w ∈ workers, w.ID ≠ workerID) :
    updateWorkerFirst workers workerID p cd = workers := by
  induction workers with
  | nil => rfl
  | cons w ws ih =>
    rw [updateWorkerFirst, if_neg (h w (List.mem_cons_self w ws))]
    rw [ih fun x hx => h x (List.mem_cons_of_mem w hx)]

theorem UpdateWorkerProgress_some (st : ScanRegistry) (scanID workerID : String)
    (p : Rat) (cd : String) (scan : ScanStatus) (h : st scanID = some scan) :
    UpdateWorkerProgress st scanID workerID p cd = fun k =>
      if k = scanID then
        some { scan with
          ActiveDroplets := updateWorkerFirst scan.ActiveDroplets workerID p cd
          Progress :=
            if 0 < (updateWorkerFirst scan.ActiveDroplets workerID p cd).length then
              ((updateWorkerFirst scan.ActiveDroplets workerID p cd).map
                  WorkerStatus.Progress).sum
                / ((updateWorkerFirst scan.ActiveDroplets workerID p cd).length : Rat)
            else scan.Progress }
      else st k := by
  unfold UpdateWorkerProgress
  rw [h]

theorem CleanupScan_some (st : ScanRegistry) (scanID : String) (scan : ScanStatus)
    (h : st scanID = some scan) :
    CleanupScan st scanID
      = ((fun k => if k = scanID then none else st k : ScanRegistry), none) := by
  unfold CleanupScan
  rw [h]

theorem CleanupScan_none (st : ScanRegistry) (scanID : String)
    (h : st scanID = none) :
    CleanupScan st scanID = (st, none) := by
  unfold CleanupScan
  rw [h]

/-- Concrete worker used by the witnesses. -/
def sampleWorker (id : String) (p : Rat) : WorkerStatus :=
  { ID := id
    IP := "203.0.113.7"
    Progress := p
    CurrentDomain := ""
    DomainsScanned := 0
    TotalDomains := 2
    Logs := []
    CreatedAt := 0
    Status := "running" }

/-- Concrete scan state used by the witnesses: two registered workers at 0%
and 100%. -/
def sampleScan : ScanStatus :=
  { ID := "job-1"
    Progress := 50
    ActiveDroplets := [sampleWorker "w1" 0, sampleWorker "w2" 100]
    Results := []
    TotalDomains := 4
    ScannedDomains := 0
    Status := "running" }

/-- Concrete registry used by the witnesses. -/
def sampleRegistry : ScanRegistry :=
  fun k => if k = "job-1" then some sampleScan else none

/-- C2: after every UpdateWorkerProgress call on an existing job, the job's
overall progress equals the arithmetic mean of the registered workers'
progress values; with zero registered workers the stored progress is kept,
and it is 0 because StartScan initializes it to 0 (first conjunct) and no
other code path sets it while the worker list is empty (hypothesis `hinv`). -/
theorem C2_progress_is_mean (st : ScanRegistry) (scanID workerID : String)
    (p : Rat) (cd : String) (scan : ScanStatus) (domains : List String)
    (hscan : st scanID = some scan)
    (hinv : scan.ActiveDroplets = [] → scan.Progress = 0) :
    (initialScanStatus scanID domains).Progress = 0 ∧
    ∃ scan', UpdateWorkerProgress st scanID workerID p cd scanID = some scan' ∧
      scan'.ActiveDroplets = updateWorkerFirst scan.ActiveDroplets workerID p cd ∧
      (scan'.ActiveDroplets ≠ [] →
        scan'.Progress = (scan'.ActiveDroplets.map WorkerStatus.Progress).sum
          / (scan'.ActiveDroplets.length : Rat)) ∧
      (scan'.ActiveDroplets = [] → scan'.Progress = 0) := by
  refine ⟨rfl, ?_⟩
  unfold UpdateWorkerProgress
  rw [hscan]
  refine ⟨_, if_pos rfl, rfl, ?_, ?_⟩
  · intro h
    dsimp only at h ⊢
    rw [if_pos (List.length_pos.mpr h)]
  · intro h
    dsimp only at h ⊢
    rw [h, if_neg (by simp)]
    exact hinv ((updateWorkerFirst_nil_iff _ _ _ _).mp h)

/-- C2 witness: the mean property at a concrete registry holding one job with
workers at 0% and 100%, updated to 50% for worker w1. -/
theorem C2_progress_is_mean_witness :
    ∃ scan', UpdateWorkerProgress sampleRegistry "job-1" "w1" 50 "x" "job-1"
        = some scan' ∧
      scan'.Progress = (scan'.ActiveDroplets.map WorkerStatus.Progress).sum
        / (scan'.ActiveDroplets.length : Rat) := by
  obtain ⟨-, scan', h1, hA, h2, -⟩ :=
    C2_progress_is_mean sampleRegistry "job-1" "w1" 50 "x" sampleScan []
      (by decide) (by decide)
  refine ⟨scan', h1, h2 ?_⟩
  rw [hA]
  decide

/-- C9: UpdateWorkerProgress with an unknown job ID returns the registry
unchanged and signals nothing; with an existing job but an unknown worker ID
it leaves the worker list untouched yet still recomputes the job's overall
progress as the mean over the existing workers (when there are any; with none
the stored progress is kept), and no other registry entry changes. -/
theorem C9_update_unknown_ids (st : ScanRegistry) (scanID workerID : String)
    (p : Rat) (cd : String) :
    (st scanID = none → UpdateWorkerProgress st scanID workerID p cd = st) ∧
    (∀ scan, st scanID = some scan →
      (∀ w ∈ scan.ActiveDroplets, w.ID ≠ workerID) →
      ∃ scan', UpdateWorkerProgress st scanID workerID p cd scanID = some scan' ∧
        scan'.ActiveDroplets = scan.ActiveDroplets ∧
        (scan.ActiveDroplets ≠ [] →
          scan'.Progress = (scan.ActiveDroplets.map WorkerStatus.Progress).sum
            / (scan.ActiveDroplets.length : Rat)) ∧
        (scan.ActiveDroplets = [] → scan'.Progress = scan.Progress) ∧
        ∀ k, k ≠ scanID → UpdateWorkerProgress st scanID workerID p cd k = st k) := by
  constructor
  · intro h
    unfold UpdateWorkerProgress
    rw [h]
  · intro scan h hws
    rw [UpdateWorkerProgress_some st scanID workerID p cd scan h,
      updateWorkerFirst_of_not_mem scan.ActiveDroplets workerID p cd hws]
    refine ⟨_, if_pos rfl, rfl, ?_, ?_, ?_⟩
    · intro hne
      dsimp only
      rw [if_pos (List.length_pos.mpr hne)]
    · intro hnil
      dsimp only
      rw [hnil, if_neg (by simp)]
    · intro k hk
      exact if_neg hk

/-- C9 witness: the unknown-job case on the empty registry, and the
unknown-worker case (worker id "zz") on the concrete registry, including that
the other registry key "other" is untouched. -/
theorem C9_update_unknown_ids_witness :
    (UpdateWorkerProgress (fun _ => none : ScanRegistry) "nope" "w" 10 "d"
        = (fun _ => none : ScanRegistry)) ∧
    (∃ scan', UpdateWorkerProgress sampleRegistry "job-1" "zz" 10 "d" "job-1"
          = some scan' ∧
      scan'.ActiveDroplets = sampleScan.ActiveDroplets ∧
      scan'.Progress = (sampleScan.ActiveDroplets.map WorkerStatus.Progress).sum
        / (sampleScan.ActiveDroplets.length : Rat) ∧
      UpdateWorkerProgress sampleRegistry "job-1" "zz" 10 "d" "other"
        = sampleRegistry "other") := by
  constructor
  · exact (C9_update_unknown_ids (fun _ => none : ScanRegistry) "nope" "w" 10 "d").1 rfl
  · obtain ⟨scan', h1, h2, h3, -, h5⟩ :=
      (C9_update_unknown_ids sampleRegistry "job-1" "zz" 10 "d").2 sampleScan
        (by decide) (by decide)
    exact ⟨scan', h1, h2, h3 (by decide), h5 "other" (by decide)⟩

/-- C5: CleanupScan is idempotent: it always returns a nil error, an absent
job leaves the registry unchanged, a successful call removes the job's
ScanState, and a second call on the resulting registry returns no error and
changes nothing. -/
theorem C5_cleanup_idempotent (st : ScanRegistry) (scanID : String) :
    (CleanupScan st scanID).2 = none ∧
    (st scanID = none → CleanupScan st scanID = (st, none)) ∧
    (CleanupScan st scanID).1 scanID = none ∧
    CleanupScan (CleanupScan st scanID).1 scanID = ((CleanupScan st scanID).1, none) := by
  cases h : st scanID with
  | none =>
    have hc := CleanupScan_none st scanID h
    refine ⟨by rw [hc], fun _ => hc, by rw [hc]; exact h, ?_⟩
    rw [hc]
    exact CleanupScan_none st scanID h
  | some scan =>
    have hc := CleanupScan_some st scanID scan h
    have h1 : (CleanupScan st scanID).1 scanID = none := by
      rw [hc]
      exact if_pos rfl
    refine ⟨by rw [hc], ?_, h1, ?_⟩
    · intro h2
      exact Option.noConfusion h2
    · rw [hc]
      exact CleanupScan_none _ scanID (if_pos rfl)

/-- C5 witness: cleanup of an absent job on the empty registry is a no-op with
no error, and removal followed by a second cleanup on the concrete registry. -/
theorem C5_cleanup_idempotent_witness :
    CleanupScan (fun _ => none : ScanRegistry) "job-1"
        = ((fun _ => none : ScanRegistry), none) ∧
    (CleanupScan sampleRegistry "job-1").1 "job-1" = none ∧
    CleanupScan (CleanupScan sampleRegistry "job-1").1 "job-1"
        = ((CleanupScan sampleRegistry "job-1").1, none) :=
  ⟨(C5_cleanup_idempotent (fun _ => none : ScanRegistry) "job-1").2.1 rfl,
   (C5_cleanup_idempotent sampleRegistry "job-1").2.2.1,
   (C5_cleanup_idempotent sampleRegistry "job-1").2.2.2⟩

theorem cleanDomainsGo_eq_nil_iff (ds : List String) :
    cleanDomainsGo ds = [] ↔ ∀ d ∈ ds, goTrimSpace d = "" := by
  induction ds with
  | nil => simp [cleanDomainsGo]
  | cons d ds ih =>
    by_cases h : goTrimSpace d = ""
    · simp [cleanDomainsGo, h, ih]
    · simp [cleanDomainsGo, h]

/-- C6: job submission rejects an empty item list, or one whose entries all
trim to the empty string, with a 400 error and an unchanged registry (no scan
started); a submission with at least one non-empty trimmed domain gets a scan
ID back together with the registration of the cleaned domains. -/
theorem C6_submission_validation (st : ScanRegistry) (reqDomains : List String)
    (newID : String) :
    ((∀ d ∈ reqDomains, goTrimSpace d = "") →
      ∃ msg, startScanHandler st reqDomains newID
          = (HandlerResult.badRequest msg, st)) ∧
    ((∃ d ∈ reqDomains, goTrimSpace d ≠ "") →
      ∃ cnt, 0 < cnt ∧
        startScanHandler st reqDomains newID
          = (HandlerResult.ok newID cnt,
             startScanRegister st newID (cleanDomainsGo reqDomains))) := by
  constructor
  · intro h
    unfold startScanHandler
    by_cases hlen : reqDomains.length = 0
    · rw [if_pos hlen]
      exact ⟨"No domains provided", rfl⟩
    · rw [if_neg hlen]
      have hc : cleanDomainsGo reqDomains = [] := (cleanDomainsGo_eq_nil_iff _).mpr h
      dsimp only
      rw [hc]
      exact ⟨"No valid domains provided", if_pos rfl⟩
  · rintro ⟨d, hd, hne⟩
    unfold startScanHandler
    have hlen : ¬ reqDomains.length = 0 := by
      cases reqDomains with
      | nil => cases hd
      | cons x xs => simp
    rw [if_neg hlen]
    dsimp only
    have hc : ¬ cleanDomainsGo reqDomains = [] :=
      fun hcc => hne ((cleanDomainsGo_eq_nil_iff _).mp hcc d hd)
    have hclen : ¬ (cleanDomainsGo reqDomains).length = 0 := by
      simpa [List.length_eq_zero] using hc
    rw [if_neg hclen]
    exact ⟨(cleanDomainsGo reqDomains).length, List.length_pos.mpr hc, rfl⟩

/-- C6 witness: whitespace-only input is rejected with an unchanged registry;
the input `["a ", ""]` yields a job ID and one cleaned domain. -/
theorem C6_submission_validation_witness :
    (∃ msg, startScanHandler (fun _ => none : ScanRegistry) [" ", ""] "id-1"
        = (HandlerResult.badRequest msg, (fun _ => none : ScanRegistry))) ∧
    (∃ cnt, 0 < cnt ∧
      startScanHandler (fun _ => none : ScanRegistry) ["a ", ""] "id-2"
        = (HandlerResult.ok "id-2" cnt,
           startScanRegister (fun _ => none : ScanRegistry) "id-2"
             (cleanDomainsGo ["a ", ""]))) :=
  ⟨(C6_submission_validation (fun _ => none : ScanRegistry) [" ", ""] "id-1").1
      (by decide),
   (C6_submission_validation (fun _ => none : ScanRegistry) ["a ", ""] "id-2").2
      ⟨"a ", by decide, by decide⟩⟩

theorem completeWorkerHandler_msgs (st : ScanRegistry) (scanID workerID : String)
    (scan' : ScanStatus)
    (h1 : UpdateWorkerProgress st scanID workerID 100 "completed" scanID = some scan')
    (hall : ∀ w ∈ scan'.ActiveDroplets, ¬ (w.Progress < 100)) :
    (completeWorkerHandler st scanID workerID).2.map WebSocketMessage.msgType
      = ["scan_complete"] := by
  simp only [completeWorkerHandler, GetScanStatus]
  rw [h1]
  have hb : scan'.ActiveDroplets.all (fun w => ! decide (w.Progress < 100)) = true := by
    rw [List.all_eq_true]
    intro w hw
    simpa using hall w hw
  simp [hb]

/-- C7 counterexample: on a concrete registry whose job has workers at 0% and
100%, completing worker w1 (the last incomplete one) broadcasts exactly one
message, and its type is "scan_complete", not the "job_complete" stated by the
spec. -/
theorem C7_feed_counterexample :
    ((completeWorkerHandler sampleRegistry "job-1" "w1").2.map
        WebSocketMessage.msgType = ["scan_complete"]) ∧
    "scan_complete" ≠ "job_complete" := by
  decide

/-- C7 (amended): the live feed emits `status_update` (heartbeats),
`new_result` (result ingestion), and `scan_complete` — not `job_complete`;
in particular, when after a worker's completion update every registered worker
of the job is at 100%, the broadcast message has type "scan_complete". -/
theorem C7_feed_event_types (st : ScanRegistry) (scanID workerID : String)
    (r : ScanResult) (now : Nat) (p : Rat) (cd : String) :
    ((receiveResultsHandler st scanID workerID r now).2.map
        WebSocketMessage.msgType = ["new_result"]) ∧
    (∀ m ∈ (workerHeartbeatHandler st scanID workerID p cd).2,
        m.msgType = "status_update") ∧
    (∀ m ∈ (completeWorkerHandler st scanID workerID).2,
        m.msgType = "scan_complete") ∧
    (∀ scan, st scanID = some scan →
      (∀ w ∈ updateWorkerFirst scan.ActiveDroplets workerID 100 "completed",
        ¬ (w.Progress < 100)) →
      (completeWorkerHandler st scanID workerID).2.map WebSocketMessage.msgType
        = ["scan_complete"]) := by
  refine ⟨rfl, ?_, ?_, ?_⟩
  · intro m hm
    simp only [workerHeartbeatHandler] at hm
    split at hm
    · simp at hm
      rw [hm]
    · simp at hm
  · intro m hm
    simp only [completeWorkerHandler] at hm
    split at hm
    · simp at hm
    · split at hm
      · simp at hm
        rw [hm]
      · simp at hm
  · intro scan h hall
    have h1 : UpdateWorkerProgress st scanID workerID 100 "completed" scanID
        = some { scan with
            ActiveDroplets := updateWorkerFirst scan.ActiveDroplets workerID 100 "completed"
            Progress :=
              if 0 < (updateWorkerFirst scan.ActiveDroplets workerID 100 "completed").length then
                ((updateWorkerFirst scan.ActiveDroplets workerID 100 "completed").map
                    WorkerStatus.Progress).sum
                  / ((updateWorkerFirst scan.ActiveDroplets workerID 100 "completed").length : Rat)
              else scan.Progress } := by
      rw [UpdateWorkerProgress_some st scanID workerID 100 "completed" scan h]
      exact if_pos rfl
    exact completeWorkerHandler_msgs st scanID workerID _ h1 hall

/-- C7 witness: the three emitted event types at a concrete registry (a
heartbeat on job-1, a result on job-1, and the completion of the last
worker). -/
theorem C7_feed_event_types_witness :
    ((receiveResultsHandler sampleRegistry "job-1" "w1"
        { Host := "h", Template := "t", Severity := "info", Match := "m",
          Timestamp := 0, WorkerID := "" } 5).2.map WebSocketMessage.msgType
      = ["new_result"]) ∧
    ((completeWorkerHandler sampleRegistry "job-1" "w1").2.map
        WebSocketMessage.msgType = ["scan_complete"]) :=
  ⟨(C7_feed_event_types sampleRegistry "job-1" "w1"
      { Host := "h", Template := "t", Severity := "info", Match := "m",
        Timestamp := 0, WorkerID := "" } 5 100 "x").1,
   (C7_feed_event_types sampleRegistry "job-1" "w1"
      { Host := "h", Template := "t", Severity := "info", Match := "m",
        Timestamp := 0, WorkerID := "" } 5 100 "x").2.2.2 sampleScan (by decide)
      (by decide)⟩

theorem BroadcastToScan_absent (wsm : WSManager) (scanID : String)
    (msg : WebSocketMessage) (h : wsm.broadcast scanID = none) :
    BroadcastToScan wsm scanID msg = wsm := by
  unfold BroadcastToScan
  rw [h]

/-- C8: unregistering the last connection of a job removes the job's client
set and its broadcast queue (the Go code closes the channel and deletes both
map entries), and every later BroadcastToScan to that job returns the manager
unchanged without error. -/
theorem C8_unregister_last_frees (wsm : WSManager) (scanID : String) (conn : Nat)
    (q : List WebSocketMessage)
    (hc : wsm.clients scanID = some [conn])
    (_hq : wsm.broadcast scanID = some q) :
    ((UnregisterClient wsm scanID conn).clients scanID = none) ∧
    ((UnregisterClient wsm scanID conn).broadcast scanID = none) ∧
    (∀ msg, BroadcastToScan (UnregisterClient wsm scanID conn) scanID msg
        = UnregisterClient wsm scanID conn) := by
  have hu : UnregisterClient wsm scanID conn
      = { clients := fun k => if k = scanID then none else wsm.clients k
          broadcast := fun k => if k = scanID then none else wsm.broadcast k } := by
    unfold UnregisterClient
    rw [hc]
    simp
  refine ⟨by rw [hu]; exact if_pos rfl, by rw [hu]; exact if_pos rfl, ?_⟩
  intro msg
  exact BroadcastToScan_absent _ scanID msg (by rw [hu]; exact if_pos rfl)

/-- Concrete WebSocket manager used by the C8 witness: one job with a single
connection and an empty open queue. -/
def sampleWSM : WSManager :=
  { clients := fun k => if k = "job-1" then some [7] else none
    broadcast := fun k => if k = "job-1" then some [] else none }

/-- C8 witness: unregistering the only connection of job-1 frees both entries,
and a later broadcast of a concrete message is a no-op. -/
theorem C8_unregister_last_frees_witness :
    ((UnregisterClient sampleWSM "job-1" 7).clients "job-1" = none) ∧
    ((UnregisterClient sampleWSM "job-1" 7).broadcast "job-1" = none) ∧
    BroadcastToScan (UnregisterClient sampleWSM "job-1" 7) "job-1"
        { msgType := "new_result", Data := MsgData.text "x" }
      = UnregisterClient sampleWSM "job-1" 7 :=
  ⟨(C8_unregister_last_frees sampleWSM "job-1" 7 [] (by decide) (by decide)).1,
   (C8_unregister_last_frees sampleWSM "job-1" 7 [] (by decide) (by decide)).2.1,
   (C8_unregister_last_frees sampleWSM "job-1" 7 [] (by decide) (by decide)).2.2
      { msgType := "new_result", Data := MsgData.text "x" }⟩

end NucleiCloud
